import Mathlib

/-!
Shallow embedding of the DHT22 single-wire driver (`src/dht_sensor.c`,
`src/dht_sensor.h`).

Modelling conventions:
* The external GPIO/timer collaborators are abstracted into a `DhtEnv`:
  the data-line level is a function of absolute time in microseconds,
  and the success of `gpio_set_direction` / `gpio_set_level` calls is a
  function of the time at which the call is made.
* The monotonic microsecond clock (`esp_timer_get_time`) is modelled by
  threading the current time through every operation.  One iteration of a
  busy-wait polling loop samples the level and the clock at the current
  time and then advances time by `1 + pollStep t` microseconds: the clock
  is strictly increasing across successive polls, `pollStep` is the extra
  cost of a poll beyond one microsecond.  `ets_delay_us n` advances time
  by `n`.
* The C `while` loops are unbounded; they are embedded with an explicit
  fuel argument (`none` = fuel exhausted), and fuel `timeout + 1` is
  proved sufficient, which is exactly the termination argument for the
  busy-wait loops.
* C `float` arithmetic in the decode step is modelled exactly over `ℚ`.
* `uint8_t` values are modelled as `Nat` (all frame bytes are < 256 by
  construction); `&` is `&&&` on `Nat`.
-/

namespace DhtSensor

/-- `dht_retval` from `src/dht_sensor.h`. -/
inductive dht_retval where
  | DHT_OK
  | DHT_ERR_GPIO
  | DHT_ERR_BADCHECKSUM
  | DHT_ERR_TIMEOUT
deriving DecidableEq, Repr

open dht_retval

/-- `dht_reading` from `src/dht_sensor.h`; the two `float` fields are
modelled as exact rationals. -/
structure dht_reading where
  temperature : ℚ
  humidity : ℚ
  checksum : Nat
deriving DecidableEq, Repr

/-- The external GPIO / clock collaborators (spec §6): the line level as a
function of time, the extra time a poll iteration takes beyond 1µs, and
whether `gpio_set_direction` / `gpio_set_level` succeed at a given time. -/
structure DhtEnv where
  level : Nat → Bool
  pollStep : Nat → Nat
  dirOk : Nat → Bool
  lvlOk : Nat → Bool

/- Data line timings defined by the DHT22 spec, in microseconds
   (`src/dht_sensor.c`, lines 29-35). -/

def spec_us_out_request_low : Nat := 3000

def spec_us_out_request_high : Nat := 20

def spec_us_in_ready_signal_half : Nat := 80

def spec_us_in_data_bit_low : Nat := 50

def spec_us_in_data_bit_high : Nat := 70

def spec_us_bit_length_threshold : Nat := 40

def measured_us_max_transition_t : Nat := 10

def DHT_BYTES_PER_READ : Nat := 5

/-- One C busy-wait loop
`while(gpio_get_level(dht) == ¬target) { if(now - entry >= timeout) return TIMEOUT; }`.
Each iteration first samples the level (loop guard), then the clock.
`some (true, t)` = the guard failed (level reached `target`) at time `t`;
`some (false, t)` = the timeout branch returned at time `t`;
`none` = fuel exhausted (never happens with fuel `timeout + 1`). -/
def awaitLoop (e : DhtEnv) (target : Bool) (timeoutUsec entry : Nat) :
    Nat → Nat → Option (Bool × Nat)
  | 0, _ => none
  | fuel + 1, t =>
    if e.level t = target then some (true, t)
    else if timeoutUsec ≤ t - entry then some (false, t)
    else awaitLoop e target timeoutUsec entry fuel (t + 1 + e.pollStep t)

/-- Entry into a busy-wait loop at time `t`: `entry` is sampled as `t` and
the fuel `timeoutUsec + 1` is sufficient (see `awaitLoop_isSome`). -/
def dht_await_level (e : DhtEnv) (target : Bool) (timeoutUsec t : Nat) :
    Option (Bool × Nat) :=
  awaitLoop e target timeoutUsec t (timeoutUsec + 1) t

/-- `dht_request_readings` (`src/dht_sensor.c`, lines 40-65): set the pin
to output, drive low for 3000µs, drive high for 20µs, switch to input.
Returns the retval and the time at which the function returns. -/
def dht_request_readings (e : DhtEnv) (t : Nat) : dht_retval × Nat :=
  if e.dirOk t = false then ( DHT_ERR_GPIO, t)
  else if e.lvlOk t = false then ( DHT_ERR_GPIO, t)
  else
    let t1 := t + spec_us_out_request_low
    if e.lvlOk t1 = false then ( DHT_ERR_GPIO, t1)
    else
      let t2 := t1 + spec_us_out_request_high
      if e.dirOk t2 = false then ( DHT_ERR_GPIO, t2)
      else (DHT_OK, t2)

/-- `dht_await_data` (`src/dht_sensor.c`, lines 69-90): wait while the
line is low, then wait while it is high, each bounded by
`spec_us_in_ready_signal_half + 10` µs. -/
def dht_await_data (e : DhtEnv) (t : Nat) : Option (dht_retval × Nat) :=
  let timeout_usec := spec_us_in_ready_signal_half + 10
  match dht_await_level e true timeout_usec t with
  | none => none
  | some (false, t1) => some (DHT_ERR_TIMEOUT, t1)
  | some (true, t1) =>
    match dht_await_level e false timeout_usec t1 with
    | none => none
    | some (false, t2) => some (DHT_ERR_TIMEOUT, t2)
    | some (true, t2) => some (DHT_OK, t2)

/-- `dht_read_bit` (`src/dht_sensor.c`, lines 93-123): wait while low
(bound 50+20), wait while high (bound 70+20), measure the time spent
high, decode `< 40 ⇒ 0, else 1`.  The middle component is the value
written through the `read_bit` out-parameter (`none` = not written). -/
def dht_read_bit (e : DhtEnv) (t : Nat) :
    Option (dht_retval × Option Bool × Nat) :=
  let timeout_low_usec := spec_us_in_data_bit_low + 20
  let timeout_high_usec := spec_us_in_data_bit_high + 20
  match dht_await_level e true timeout_low_usec t with
  | none => none
  | some (false, t1) => some (DHT_ERR_TIMEOUT, none, t1)
  | some (true, t1) =>
    match dht_await_level e false timeout_high_usec t1 with
    | none => none
    | some (false, t2) => some (DHT_ERR_TIMEOUT, none, t2)
    | some (true, t2) =>
      let usec_spent_high := t2 - t1
      some (DHT_OK,
        some (if usec_spent_high < spec_us_bit_length_threshold
              then false else true), t2)

/-- `dht_init` (`src/dht_sensor.c`, lines 125-136): set the pin to output
and drive it high. -/
def dht_init (e : DhtEnv) (t : Nat) : dht_retval × Nat :=
  if e.dirOk t = false then ( DHT_ERR_GPIO, t)
  else if e.lvlOk t = false then ( DHT_ERR_GPIO, t)
  else (DHT_OK, t)

/-- The inner loop of `dht_read` (`src/dht_sensor.c`, lines 164-176):
`for(int bit_idx = 7; bit_idx >= 0; bit_idx--)`.  The first argument is
the number of bit reads still to do, so the current C `bit_idx` is
`n` when the argument is `n + 1`.  `byte_in` and `bit_in` are the local
variables of `dht_read`; `bit_in` is only overwritten when
`dht_read_bit` writes its out-parameter.  Returns the retval, the final
`byte_in`, the final `bit_in` and the time. -/
def dht_read_bits (e : DhtEnv) :
    Nat → Nat → Bool → Nat → Option (dht_retval × Nat × Bool × Nat)
  | 0, byte_in, bit_in, t => some (DHT_OK, byte_in, bit_in, t)
  | n + 1, byte_in, bit_in, t =>
    match dht_read_bit e t with
    | none => none
    | some (rv, wrote, t1) =>
      let bit_in := wrote.getD bit_in
      if rv = DHT_OK then
        let byte_in := if bit_in = true then byte_in ||| (1 <<< n) else byte_in
        dht_read_bits e n byte_in bit_in (t1 + measured_us_max_transition_t)
      else some (DHT_ERR_TIMEOUT, byte_in, bit_in, t1)

/-- The outer loop of `dht_read` (`src/dht_sensor.c`, lines 161-178):
`for(uint8_t byte_idx = 0; ...)`.  The first argument is the number of
bytes still to read; `byte_idx` is the index the next completed byte is
stored at (`buf[byte_idx] = byte_in`).  On a bit timeout the whole read
is abandoned: `buf` keeps its previous contents at all indices not yet
written. -/
def dht_read_frame (e : DhtEnv) :
    Nat → Nat → List Nat → Bool → Nat →
      Option (dht_retval × List Nat × Bool × Nat)
  | 0, _, buf, bit_in, t => some (DHT_OK, buf, bit_in, t)
  | n + 1, byte_idx, buf, bit_in, t =>
    match dht_read_bits e 8 0 bit_in t with
    | none => none
    | some (DHT_OK, byte_in, bit_in, t1) =>
      dht_read_frame e n (byte_idx + 1) (buf.set byte_idx byte_in) bit_in t1
    | some (_, _, bit_in, t1) => some (DHT_ERR_TIMEOUT, buf, bit_in, t1)

/-- The zeroed 5-byte buffer: `memset(buf, 0x00, sizeof(buf))`
(`src/dht_sensor.c`, line 145). -/
def zeroFrame : List Nat := [0, 0, 0, 0, 0]

/-- The zeroed out-parameter: `memset(reading, 0x00, sizeof(dht_reading))`
(`src/dht_sensor.c`, line 146). -/
def zeroReading : dht_reading := { temperature := 0, humidity := 0, checksum := 0 }

/-- The checksum test of `dht_read` (`src/dht_sensor.c`, line 181):
`buf[4] == ((buf[0] + buf[1] + buf[2] + buf[3]) & 0xFF)`. -/
def dht_checksum_ok (buf : List Nat) : Bool :=
  buf.getD 4 0 ==
    ((buf.getD 0 0 + buf.getD 1 0 + buf.getD 2 0 + buf.getD 3 0) &&& 0xFF)

/-- The parse step of `dht_read` (`src/dht_sensor.c`, lines 186-201),
with the C float arithmetic carried out exactly over `ℚ`. -/
def dht_parse (buf : List Nat) : dht_reading :=
  let humidity : ℚ :=
    (((buf.getD 0 0 : Nat) : ℚ) * 0x100 + ((buf.getD 1 0 : Nat) : ℚ)) / 10
  let tmag : ℚ :=
    ((((buf.getD 2 0) &&& 0x7F : Nat) : ℚ) * 0x100 + ((buf.getD 3 0 : Nat) : ℚ)) / 10
  { temperature := if (buf.getD 2 0) &&& 0x80 ≠ 0 then -tmag else tmag
    humidity := humidity
    checksum := buf.getD 4 0 }

/-- `dht_read` (`src/dht_sensor.c`, lines 139-204).  Returns the retval,
the contents of the `reading` out-parameter, and the time at which the
call returns. -/
def dht_read (e : DhtEnv) (t : Nat) : Option (dht_retval × dht_reading × Nat) :=
  match dht_request_readings e t with
  | (DHT_OK, t1) =>
    match dht_await_data e t1 with
    | none => none
    | some (DHT_OK, t2) =>
      match dht_read_frame e DHT_BYTES_PER_READ 0 zeroFrame false t2 with
      | none => none
      | some (DHT_OK, buf, _, t3) =>
        if dht_checksum_ok buf = false then some (DHT_ERR_BADCHECKSUM, zeroReading, t3)
        else some (DHT_OK, dht_parse buf, t3)
      | some (_, _, _, t3) => some (DHT_ERR_TIMEOUT, zeroReading, t3)
    | some (_, t2) => some (DHT_ERR_TIMEOUT, zeroReading, t2)
  | (_, t1) => some ( DHT_ERR_GPIO, zeroReading, t1)

/-!
Concrete simulated environments, used to instantiate the theorems below
on explicit inputs.
-/

/-- A piecewise-constant waveform: `levelAt segs t` walks the list of
`(duration, level)` segments; after the last segment the line stays low. -/
def levelAt : List (Nat × Bool) → Nat → Bool
  | [], _ => false
  | (d, b) :: rest, t => if t < d then b else levelAt rest (t - d)

/-- The eight bits of a byte, most significant first. -/
def byteBits (b : Nat) : List Bool :=
  [b.testBit 7, b.testBit 6, b.testBit 5, b.testBit 4,
   b.testBit 3, b.testBit 2, b.testBit 1, b.testBit 0]

/-- A nominal DHT22 transmission waveform: the line is idle (high) during
the 3020µs host request, then the 80µs/80µs handshake, then per data bit
50µs low followed by 30µs (bit 0) or 70µs (bit 1) high, then low. -/
def frameSegs (bits : List Bool) : List (Nat × Bool) :=
  [(3020, true), (80, false), (80, true)] ++
    bits.flatMap (fun b => [(50, false), ((if b then 70 else 30), true)])

/-- Environment transmitting the given 5 bytes with nominal timing; every
GPIO call succeeds and each poll iteration takes 10µs. -/
def simEnv (bytes : List Nat) : DhtEnv :=
  { level := levelAt (frameSegs (bytes.flatMap byteBits))
    pollStep := fun _ => 9
    dirOk := fun _ => true
    lvlOk := fun _ => true }

/-- A correctly checksummed transmission: 65.2% humidity, 25.8°C,
checksum (2 + 140 + 1 + 2) % 256 = 145. -/
def goodEnv : DhtEnv := simEnv [0x02, 0x8C, 0x01, 0x02, 0x91]

/-- The same data bytes with a corrupted (nonzero) checksum byte 0x77. -/
def badEnv : DhtEnv := simEnv [0x02, 0x8C, 0x01, 0x02, 0x77]

/-- A sensor whose line is stuck at level `b`; GPIO calls succeed and the
clock advances 1µs per poll. -/
def stuckEnv (b : Bool) : DhtEnv :=
  { level := fun _ => b
    pollStep := fun _ => 0
    dirOk := fun _ => true
    lvlOk := fun _ => true }

/-- A line that is high for the first `d` microseconds, then low; used to
feed `dht_read_bit` a high phase of a chosen duration. -/
def pulseEnv (d : Nat) : DhtEnv :=
  { level := fun t => t < d
    pollStep := fun _ => 0
    dirOk := fun _ => true
    lvlOk := fun _ => true }

/-- An environment whose `gpio_set_direction` always fails. -/
def gpioFailEnv : DhtEnv :=
  { level := fun _ => false
    pollStep := fun _ => 0
    dirOk := fun _ => false
    lvlOk := fun _ => true }

/-!
Basic lemmas about the busy-wait loop.
-/

/-- Unfolding one iteration of the busy-wait loop. -/
theorem awaitLoop_succ (e : DhtEnv) (target : Bool) (timeoutUsec entry fuel t : Nat) :
    awaitLoop e target timeoutUsec entry (fuel + 1) t =
      if e.level t = target then some (true, t)
      else if timeoutUsec ≤ t - entry then some (false, t)
      else awaitLoop e target timeoutUsec entry fuel (t + 1 + e.pollStep t) := rfl

/-- Fuel sufficiency: since each poll advances the clock by at least 1µs,
fuel `timeoutUsec + 1` (counted from the remaining elapsed budget) is
enough for the loop to return. -/
theorem awaitLoop_isSome (e : DhtEnv) (target : Bool) (timeoutUsec entry : Nat) :
    ∀ fuel t, entry ≤ t → timeoutUsec - (t - entry) < fuel →
      (awaitLoop e target timeoutUsec entry fuel t).isSome := by
  intro fuel
  induction fuel with
  | zero => intro t ht h; omega
  | succ n ih =>
    intro t ht h
    rw [awaitLoop_succ]
    split
    · simp
    · split
      · simp
      · next h2 => exact ih (t + 1 + e.pollStep t) (by omega) (by omega)

/-- The wrapped loop always returns. -/
theorem dht_await_level_isSome (e : DhtEnv) (target : Bool) (timeoutUsec t : Nat) :
    (dht_await_level e target timeoutUsec t).isSome :=
  awaitLoop_isSome e target timeoutUsec t (timeoutUsec + 1) t le_rfl (by omega)

/-- When the loop exits with OK, the level at the exit time is the target. -/
theorem awaitLoop_ok_level (e : DhtEnv) (target : Bool) (timeoutUsec entry : Nat) :
    ∀ fuel t t', awaitLoop e target timeoutUsec entry fuel t = some (true, t') →
      e.level t' = target := by
  intro fuel
  induction fuel with
  | zero => intro t t' h; simp [awaitLoop] at h
  | succ n ih =>
    intro t t' h
    rw [awaitLoop_succ] at h
    split at h
    · cases h; assumption
    · split at h
      · cases h
      · exact ih _ _ h

/-- When the loop returns TIMEOUT, the level at the return time was not
the target and the elapsed time had reached the (inclusive) bound. -/
theorem awaitLoop_timeout_spec (e : DhtEnv) (target : Bool) (timeoutUsec entry : Nat) :
    ∀ fuel t t', awaitLoop e target timeoutUsec entry fuel t = some (false, t') →
      e.level t' ≠ target ∧ timeoutUsec ≤ t' - entry := by
  intro fuel
  induction fuel with
  | zero => intro t t' h; simp [awaitLoop] at h
  | succ n ih =>
    intro t t' h
    rw [awaitLoop_succ] at h
    split at h
    · cases h
    · split at h
      · cases h
        next hl ht => exact ⟨hl, ht⟩
      · exact ih _ _ h

/-- The exit time of the loop is not before its entry time. -/
theorem awaitLoop_le_time (e : DhtEnv) (target : Bool) (timeoutUsec entry : Nat) :
    ∀ fuel t ok t', awaitLoop e target timeoutUsec entry fuel t = some (ok, t') →
      t ≤ t' := by
  intro fuel
  induction fuel with
  | zero => intro t ok t' h; simp [awaitLoop] at h
  | succ n ih =>
    intro t ok t' h
    rw [awaitLoop_succ] at h
    split at h
    · cases h; exact le_rfl
    · split at h
      · cases h; exact le_rfl
      · exact le_trans (by omega) (ih _ _ _ h)

/-- With 1µs polls the loop returns no later than `entry + timeoutUsec`. -/
theorem awaitLoop_time_le (e : DhtEnv) (target : Bool) (timeoutUsec entry : Nat)
    (hstep : ∀ s, e.pollStep s = 0) :
    ∀ fuel t ok t', t ≤ entry + timeoutUsec →
      awaitLoop e target timeoutUsec entry fuel t = some (ok, t') →
      t' ≤ entry + timeoutUsec := by
  intro fuel
  induction fuel with
  | zero => intro t ok t' _ h; simp [awaitLoop] at h
  | succ n ih =>
    intro t ok t' hle h
    rw [awaitLoop_succ] at h
    split at h
    · cases h; exact hle
    · split at h
      · cases h; exact hle
      · rw [hstep t] at h
        exact ih (t + 1 + 0) _ _ (by omega) h

/-- On a line stuck at a level other than the target, the loop returns
TIMEOUT (given sufficient fuel to return at all). -/
theorem dht_await_level_const_ne (e : DhtEnv) (target b : Bool) (timeoutUsec t : Nat)
    (hlev : ∀ s, e.level s = b) (hne : b ≠ target) :
    ∃ t', dht_await_level e target timeoutUsec t = some (false, t') := by
  have hs := dht_await_level_isSome e target timeoutUsec t
  rcases h : dht_await_level e target timeoutUsec t with _ | ⟨ok, t'⟩
  · rw [h] at hs; simp at hs
  · cases ok
    · exact ⟨t', rfl⟩
    · have := awaitLoop_ok_level e target timeoutUsec t (timeoutUsec + 1) t t' h
      rw [hlev t'] at this
      exact absurd this hne

/-- On a line already at the target level, the loop returns OK at once. -/
theorem dht_await_level_hit (e : DhtEnv) (target : Bool) (timeoutUsec t : Nat)
    (h : e.level t = target) :
    dht_await_level e target timeoutUsec t = some (true, t) := by
  rw [dht_await_level, awaitLoop_succ, if_pos h]

/-!
Every driver entry point returns (fuel is never exhausted).
-/

theorem dht_await_data_isSome (e : DhtEnv) (t : Nat) : (dht_await_data e t).isSome := by
  rw [dht_await_data]
  rcases hh1 : dht_await_level e true (spec_us_in_ready_signal_half + 10) t with _ | ⟨ok1, t1⟩
  · have h1 := dht_await_level_isSome e true (spec_us_in_ready_signal_half + 10) t
    rw [hh1] at h1; simp at h1
  · cases ok1
    · simp
    · rcases hh2 : dht_await_level e false (spec_us_in_ready_signal_half + 10) t1 with _ | ⟨ok2, t2⟩
      · have h2 := dht_await_level_isSome e false (spec_us_in_ready_signal_half + 10) t1
        rw [hh2] at h2; simp at h2
      · cases ok2 <;> simp [hh2]

theorem dht_read_bit_isSome (e : DhtEnv) (t : Nat) : (dht_read_bit e t).isSome := by
  rw [dht_read_bit]
  rcases hh1 : dht_await_level e true (spec_us_in_data_bit_low + 20) t with _ | ⟨ok1, t1⟩
  · have h1 := dht_await_level_isSome e true (spec_us_in_data_bit_low + 20) t
    rw [hh1] at h1; simp at h1
  · cases ok1
    · simp
    · rcases hh2 : dht_await_level e false (spec_us_in_data_bit_high + 20) t1 with _ | ⟨ok2, t2⟩
      · have h2 := dht_await_level_isSome e false (spec_us_in_data_bit_high + 20) t1
        rw [hh2] at h2; simp at h2
      · cases ok2 <;> simp [hh2]

theorem dht_read_bits_isSome (e : DhtEnv) :
    ∀ n byte_in bit_in t, (dht_read_bits e n byte_in bit_in t).isSome := by
  intro n
  induction n with
  | zero => intro byte_in bit_in t; simp [dht_read_bits]
  | succ n ih =>
    intro byte_in bit_in t
    rw [dht_read_bits]
    rcases hh : dht_read_bit e t with _ | ⟨rv, wrote, t1⟩
    · have h := dht_read_bit_isSome e t
      rw [hh] at h; simp at h
    · by_cases hrv : rv = DHT_OK <;> simp [hrv, ih]

theorem dht_read_frame_isSome (e : DhtEnv) :
    ∀ n byte_idx buf bit_in t, (dht_read_frame e n byte_idx buf bit_in t).isSome := by
  intro n
  induction n with
  | zero => intro byte_idx buf bit_in t; simp [dht_read_frame]
  | succ n ih =>
    intro byte_idx buf bit_in t
    rw [dht_read_frame]
    rcases hh : dht_read_bits e 8 0 bit_in t with _ | ⟨rv, byte_in, bit_in2, t1⟩
    · have h := dht_read_bits_isSome e 8 0 bit_in t
      rw [hh] at h; simp at h
    · cases rv <;> simp [ih]

theorem dht_read_isSome (e : DhtEnv) (t : Nat) : (dht_read e t).isSome := by
  rw [dht_read]
  rcases hh1 : dht_request_readings e t with ⟨rv1, t1⟩
  cases rv1 <;> try simp
  rcases hh2 : dht_await_data e t1 with _ | ⟨rv2, t2⟩
  · have h2 := dht_await_data_isSome e t1
    rw [hh2] at h2; simp at h2
  · cases rv2 <;> try simp
    rcases hh3 : dht_read_frame e DHT_BYTES_PER_READ 0 zeroFrame false t2 with _ | ⟨rv3, buf, b, t3⟩
    · have h3 := dht_read_frame_isSome e DHT_BYTES_PER_READ 0 zeroFrame false t2
      rw [hh3] at h3; simp at h3
    · cases rv3 <;> simp
      split <;> simp

/-!
Stage-composition equations for `dht_read`: what `dht_read` returns is
determined by the outcome of the first failing stage.
-/

theorem dht_read_gpio_eq (e : DhtEnv) (t t1 : Nat) (rv : dht_retval)
    (h : dht_request_readings e t = (rv, t1)) (hrv : rv ≠ DHT_OK) :
    dht_read e t = some ( DHT_ERR_GPIO, zeroReading, t1) := by
  rw [dht_read, h]
  cases rv
  · exact absurd rfl hrv
  all_goals rfl

theorem dht_read_handshake_timeout_eq (e : DhtEnv) (t t1 t2 : Nat) (rv : dht_retval)
    (h1 : dht_request_readings e t = (DHT_OK, t1))
    (h2 : dht_await_data e t1 = some (rv, t2)) (hrv : rv ≠ DHT_OK) :
    dht_read e t = some (DHT_ERR_TIMEOUT, zeroReading, t2) := by
  cases rv
  · exact absurd rfl hrv
  all_goals simp only [dht_read, h1, h2]

theorem dht_read_bits_timeout_eq (e : DhtEnv) (t t1 t2 t3 : Nat) (rv : dht_retval)
    (buf : List Nat) (b : Bool)
    (h1 : dht_request_readings e t = (DHT_OK, t1))
    (h2 : dht_await_data e t1 = some (DHT_OK, t2))
    (h3 : dht_read_frame e DHT_BYTES_PER_READ 0 zeroFrame false t2 = some (rv, buf, b, t3))
    (hrv : rv ≠ DHT_OK) :
    dht_read e t = some (DHT_ERR_TIMEOUT, zeroReading, t3) := by
  cases rv
  · exact absurd rfl hrv
  all_goals simp only [dht_read, h1, h2, h3]

theorem dht_read_badchecksum_eq (e : DhtEnv) (t t1 t2 t3 : Nat)
    (buf : List Nat) (b : Bool)
    (h1 : dht_request_readings e t = (DHT_OK, t1))
    (h2 : dht_await_data e t1 = some (DHT_OK, t2))
    (h3 : dht_read_frame e DHT_BYTES_PER_READ 0 zeroFrame false t2 = some (DHT_OK, buf, b, t3))
    (h4 : dht_checksum_ok buf = false) :
    dht_read e t = some (DHT_ERR_BADCHECKSUM, zeroReading, t3) := by
  simp only [dht_read, h1, h2, h3, h4, if_true]

theorem dht_read_ok_eq (e : DhtEnv) (t t1 t2 t3 : Nat)
    (buf : List Nat) (b : Bool)
    (h1 : dht_request_readings e t = (DHT_OK, t1))
    (h2 : dht_await_data e t1 = some (DHT_OK, t2))
    (h3 : dht_read_frame e DHT_BYTES_PER_READ 0 zeroFrame false t2 = some (DHT_OK, buf, b, t3))
    (h4 : dht_checksum_ok buf = true) :
    dht_read e t = some (DHT_OK, dht_parse buf, t3) := by
  simp only [dht_read, h1, h2, h3]
  simp [h4]

/-!
Bitwise bridges between the C masks and arithmetic.
-/

theorem land_255_eq_mod (n : Nat) : n &&& 255 = n % 256 := by
  have h := Nat.and_pow_two_sub_one_eq_mod n 8
  norm_num at h
  exact h

theorem land_127_eq_mod (n : Nat) : n &&& 127 = n % 128 := by
  have h := Nat.and_pow_two_sub_one_eq_mod n 7
  norm_num at h
  exact h

theorem land_128_ne_zero (n : Nat) : n &&& 128 ≠ 0 ↔ n.testBit 7 := by
  have h : n &&& 2 ^ 7 = (n.testBit 7).toNat * 2 ^ 7 := Nat.and_two_pow n 7
  norm_num at h
  rw [h]
  cases n.testBit 7 <;> simp

/-- Exhaustive description of a `dht_read` call: exactly one of the five
stage outcomes happens, and it determines the returned triple. -/
theorem dht_read_cases (e : DhtEnv) (t : Nat) :
    (∃ t1 rv1, dht_request_readings e t = (rv1, t1) ∧ rv1 ≠ DHT_OK ∧
      dht_read e t = some ( DHT_ERR_GPIO, zeroReading, t1)) ∨
    (∃ t1 t2 rv2, dht_request_readings e t = (DHT_OK, t1) ∧
      dht_await_data e t1 = some (rv2, t2) ∧ rv2 ≠ DHT_OK ∧
      dht_read e t = some (DHT_ERR_TIMEOUT, zeroReading, t2)) ∨
    (∃ t1 t2 t3 rv3 buf b, dht_request_readings e t = (DHT_OK, t1) ∧
      dht_await_data e t1 = some (DHT_OK, t2) ∧
      dht_read_frame e DHT_BYTES_PER_READ 0 zeroFrame false t2 = some (rv3, buf, b, t3) ∧
      rv3 ≠ DHT_OK ∧
      dht_read e t = some (DHT_ERR_TIMEOUT, zeroReading, t3)) ∨
    (∃ t1 t2 t3 buf b, dht_request_readings e t = (DHT_OK, t1) ∧
      dht_await_data e t1 = some (DHT_OK, t2) ∧
      dht_read_frame e DHT_BYTES_PER_READ 0 zeroFrame false t2 = some (DHT_OK, buf, b, t3) ∧
      dht_checksum_ok buf = false ∧
      dht_read e t = some (DHT_ERR_BADCHECKSUM, zeroReading, t3)) ∨
    (∃ t1 t2 t3 buf b, dht_request_readings e t = (DHT_OK, t1) ∧
      dht_await_data e t1 = some (DHT_OK, t2) ∧
      dht_read_frame e DHT_BYTES_PER_READ 0 zeroFrame false t2 = some (DHT_OK, buf, b, t3) ∧
      dht_checksum_ok buf = true ∧
      dht_read e t = some (DHT_OK, dht_parse buf, t3)) := by
  rcases hh1 : dht_request_readings e t with ⟨rv1, t1⟩
  by_cases h1 : rv1 = DHT_OK
  · subst h1
    have hs2 := dht_await_data_isSome e t1
    rcases hh2 : dht_await_data e t1 with _ | ⟨rv2, t2⟩
    · rw [hh2] at hs2; simp at hs2
    by_cases h2 : rv2 = DHT_OK
    · subst h2
      have hs3 := dht_read_frame_isSome e DHT_BYTES_PER_READ 0 zeroFrame false t2
      rcases hh3 : dht_read_frame e DHT_BYTES_PER_READ 0 zeroFrame false t2
        with _ | ⟨rv3, buf, b, t3⟩
      · rw [hh3] at hs3; simp at hs3
      by_cases h3 : rv3 = DHT_OK
      · subst h3
        by_cases h4 : dht_checksum_ok buf = true
        · exact Or.inr (Or.inr (Or.inr (Or.inr
            ⟨t1, t2, t3, buf, b, rfl, hh2, hh3, h4,
              dht_read_ok_eq e t t1 t2 t3 buf b hh1 hh2 hh3 h4⟩)))
        · have h4' : dht_checksum_ok buf = false := by
            cases hcc : dht_checksum_ok buf
            · rfl
            · exact absurd hcc h4
          exact Or.inr (Or.inr (Or.inr (Or.inl
            ⟨t1, t2, t3, buf, b, rfl, hh2, hh3, h4',
              dht_read_badchecksum_eq e t t1 t2 t3 buf b hh1 hh2 hh3 h4'⟩)))
      · exact Or.inr (Or.inr (Or.inl
          ⟨t1, t2, t3, rv3, buf, b, rfl, hh2, hh3, h3,
            dht_read_bits_timeout_eq e t t1 t2 t3 rv3 buf b hh1 hh2 hh3 h3⟩))
    · exact Or.inr (Or.inl ⟨t1, t2, rv2, rfl, hh2, h2,
        dht_read_handshake_timeout_eq e t t1 t2 rv2 hh1 hh2 h2⟩)
  · exact Or.inl ⟨t1, rv1, rfl, h1, dht_read_gpio_eq e t t1 rv1 hh1 h1⟩

/-!
Claim theorems.
-/

/-- Claim C2: for every assembled 5-byte frame, the checksum validation of
`dht_read` accepts (and `dht_read` proceeds to decode) iff
`buf[4] = (buf[0] + buf[1] + buf[2] + buf[3]) mod 256`; for every frame
violating the equation `dht_read` returns `DHT_ERR_BADCHECKSUM`. -/
theorem dht_read_checksum_validation (e : DhtEnv) (t : Nat) :
    (∀ b0 b1 b2 b3 b4 : Nat,
      dht_checksum_ok [b0, b1, b2, b3, b4] = true ↔
        b4 = (b0 + b1 + b2 + b3) % 256) ∧
    (∀ t1 t2 t3 buf b, dht_request_readings e t = (DHT_OK, t1) →
      dht_await_data e t1 = some (DHT_OK, t2) →
      dht_read_frame e DHT_BYTES_PER_READ 0 zeroFrame false t2 = some (DHT_OK, buf, b, t3) →
      (dht_checksum_ok buf = true → dht_read e t = some (DHT_OK, dht_parse buf, t3)) ∧
      (dht_checksum_ok buf = false →
        dht_read e t = some (DHT_ERR_BADCHECKSUM, zeroReading, t3))) := by
  constructor
  · intro b0 b1 b2 b3 b4
    simp [dht_checksum_ok, land_255_eq_mod]
  · intro t1 t2 t3 buf b h1 h2 h3
    exact ⟨fun h4 => dht_read_ok_eq e t t1 t2 t3 buf b h1 h2 h3 h4,
           fun h4 => dht_read_badchecksum_eq e t t1 t2 t3 buf b h1 h2 h3 h4⟩

theorem dht_read_checksum_validation_witness :
    dht_read badEnv 0 = some (DHT_ERR_BADCHECKSUM, zeroReading, 6870) :=
  (((dht_read_checksum_validation badEnv 0).2 3020 3180 6870 [2, 140, 1, 2, 119] true
    (by decide) (by decide) (by decide)).2 (by decide))

/-- Claim C3: for every checksum-valid frame the decoded reading is
`humidity = (buf[0]*256 + buf[1]) / 10` and
`temperature = ±((buf[2] & 0x7F)*256 + buf[3]) / 10`, negative iff bit 7
of `buf[2]` is set; `[0x02, 0x8C, 0x01, 0x02, _]` decodes to humidity
65.2 and temperature 25.8, and `buf[2] = 0x81`, `buf[3] = 0x02` decodes
to temperature -25.8. -/
theorem dht_parse_decoding :
    (∀ b0 b1 b2 b3 b4 : Nat,
      (dht_parse [b0, b1, b2, b3, b4]).humidity =
        ((b0 : ℚ) * 256 + (b1 : ℚ)) / 10 ∧
      (dht_parse [b0, b1, b2, b3, b4]).temperature =
        (if b2.testBit 7 then
          -((((b2 &&& 0x7F : Nat) : ℚ) * 256 + (b3 : ℚ)) / 10)
         else (((b2 &&& 0x7F : Nat) : ℚ) * 256 + (b3 : ℚ)) / 10)) ∧
    dht_parse [0x02, 0x8C, 0x01, 0x02, 0x91] =
      { temperature := 25.8, humidity := 65.2, checksum := 0x91 } ∧
    (dht_parse [0x02, 0x8C, 0x81, 0x02, 0x91]).temperature = -25.8 := by
  refine ⟨?_, ?_, ?_⟩
  · intro b0 b1 b2 b3 b4
    constructor
    · simp [dht_parse]
    · by_cases h : b2.testBit 7
      · have h128 : b2 &&& 128 ≠ 0 := (land_128_ne_zero b2).2 h
        simp [dht_parse, h128, h]
      · have h128 : ¬ b2 &&& 128 ≠ 0 := fun hc => h ((land_128_ne_zero b2).1 hc)
        simp [dht_parse, h128, h]
  · have ha : (1 : Nat) &&& 127 = 1 := by decide
    have hb : (1 : Nat) &&& 128 = 0 := by decide
    simp [dht_parse, ha, hb]
    norm_num
  · have ha : (129 : Nat) &&& 127 = 1 := by decide
    have hb : (129 : Nat) &&& 128 ≠ 0 := by decide
    simp [dht_parse, ha, hb]
    norm_num

/-- Claim C10: whenever `dht_read` returns a non-OK status, the caller's
output reading is entirely zero — the out-parameter is zeroed on entry
and no field of it is written before the decode stage, which is only
reached on the success path. -/
theorem dht_read_error_reading_zeroed (e : DhtEnv) (t : Nat) :
    ∀ rv rd tf, dht_read e t = some (rv, rd, tf) → rv ≠ DHT_OK →
      rd = zeroReading ∧ rd.temperature = 0 ∧ rd.humidity = 0 ∧ rd.checksum = 0 := by
  intro rv rd tf h hrv
  have hz : rd = zeroReading → rd = zeroReading ∧
      rd.temperature = 0 ∧ rd.humidity = 0 ∧ rd.checksum = 0 := by
    intro he; subst he; exact ⟨rfl, rfl, rfl, rfl⟩
  rcases dht_read_cases e t with
    ⟨t1, rv1, _, _, heq⟩ | ⟨t1, t2, rv2, _, _, _, heq⟩ |
    ⟨t1, t2, t3, rv3, buf, b, _, _, _, _, heq⟩ |
    ⟨t1, t2, t3, buf, b, _, _, _, _, heq⟩ |
    ⟨t1, t2, t3, buf, b, _, _, _, _, heq⟩ <;>
    rw [heq] at h <;> simp at h
  · exact hz h.2.1.symm
  · exact hz h.2.1.symm
  · exact hz h.2.1.symm
  · exact hz h.2.1.symm
  · exact absurd h.1.symm hrv

theorem dht_read_error_reading_zeroed_witness :
    dht_read badEnv 0 = some (DHT_ERR_BADCHECKSUM, zeroReading, 6870) ∧
    zeroReading = zeroReading ∧ zeroReading.temperature = 0 ∧
    zeroReading.humidity = 0 ∧ zeroReading.checksum = 0 :=
  ⟨by decide,
   dht_read_error_reading_zeroed badEnv 0 DHT_ERR_BADCHECKSUM zeroReading 6870
     (by decide) (by decide)⟩

/-- Claim C7: every busy-wait loop returns OK as soon as the sampled pin
level satisfies the exit condition — the level check takes priority over
the timeout check, so a level already at target never yields a false
timeout — and returns DHT_ERR_TIMEOUT once the elapsed time since loop
entry reaches the timeout bound, with `elapsed = timeout` counting as a
timeout (inclusive bound). -/
theorem dht_await_level_busy_wait (e : DhtEnv) (target : Bool) (timeoutUsec t : Nat) :
    (e.level t = target → dht_await_level e target timeoutUsec t = some (true, t)) ∧
    (∀ fuel entry s, e.level s = target →
      awaitLoop e target timeoutUsec entry (fuel + 1) s = some (true, s)) ∧
    (∀ fuel entry s, e.level s ≠ target → timeoutUsec ≤ s - entry →
      awaitLoop e target timeoutUsec entry (fuel + 1) s = some (false, s)) ∧
    (∀ t', dht_await_level e target timeoutUsec t = some (true, t') →
      e.level t' = target) ∧
    (∀ t', dht_await_level e target timeoutUsec t = some (false, t') →
      e.level t' ≠ target ∧ timeoutUsec ≤ t' - t) := by
  refine ⟨?_, ?_, ?_, ?_, ?_⟩
  · exact dht_await_level_hit e target timeoutUsec t
  · intro fuel entry s h
    rw [awaitLoop_succ, if_pos h]
  · intro fuel entry s h hto
    rw [awaitLoop_succ, if_neg h, if_pos hto]
  · intro t' h
    exact awaitLoop_ok_level e target timeoutUsec t (timeoutUsec + 1) t t' h
  · intro t' h
    exact awaitLoop_timeout_spec e target timeoutUsec t (timeoutUsec + 1) t t' h

theorem dht_await_level_busy_wait_witness :
    dht_await_level (stuckEnv true) true 90 0 = some (true, 0) ∧
    ((stuckEnv false).level 90 ≠ true ∧ 90 ≤ 90 - 0) :=
  ⟨(dht_await_level_busy_wait (stuckEnv true) true 90 0).1 (by decide),
   (dht_await_level_busy_wait (stuckEnv false) true 90 0).2.2.2.2 90 (by decide)⟩

/-- Claim C8: if `dht_init` succeeds and `dht_read` is then called on a
handle whose GPIO operations all succeed but whose line level never
changes within the handshake bounds (each half bounded by
`ready_signal_half + 10 = 90` µs), `dht_read` returns DHT_ERR_TIMEOUT —
never DHT_ERR_GPIO — whether the stuck level is low or high. -/
theorem dht_init_then_read_stuck_line (e : DhtEnv) (t : Nat) (b : Bool)
    (hdir : ∀ s, e.dirOk s = true) (hlvl : ∀ s, e.lvlOk s = true)
    (hlev : ∀ s, e.level s = b) :
    dht_init e t = (DHT_OK, t) ∧
    spec_us_in_ready_signal_half + 10 = 90 ∧
    ∃ tf, dht_read e t = some (DHT_ERR_TIMEOUT, zeroReading, tf) := by
  have hreq : dht_request_readings e t =
      (DHT_OK, t + spec_us_out_request_low + spec_us_out_request_high) := by
    simp [dht_request_readings, hdir, hlvl]
  have hawait : ∃ th,
      dht_await_data e (t + spec_us_out_request_low + spec_us_out_request_high) =
        some (DHT_ERR_TIMEOUT, th) := by
    cases b
    · obtain ⟨t', ht'⟩ := dht_await_level_const_ne e true false
        (spec_us_in_ready_signal_half + 10)
        (t + spec_us_out_request_low + spec_us_out_request_high) hlev (by decide)
      exact ⟨t', by simp [dht_await_data, ht']⟩
    · have h1 := dht_await_level_hit e true (spec_us_in_ready_signal_half + 10)
        (t + spec_us_out_request_low + spec_us_out_request_high)
        (hlev (t + spec_us_out_request_low + spec_us_out_request_high))
      obtain ⟨t', ht'⟩ := dht_await_level_const_ne e false true
        (spec_us_in_ready_signal_half + 10)
        (t + spec_us_out_request_low + spec_us_out_request_high) hlev (by decide)
      exact ⟨t', by simp [dht_await_data, h1, ht']⟩
  refine ⟨by simp [dht_init, hdir, hlvl], by decide, ?_⟩
  obtain ⟨th, hth⟩ := hawait
  exact ⟨th, dht_read_handshake_timeout_eq e t
    (t + spec_us_out_request_low + spec_us_out_request_high) th DHT_ERR_TIMEOUT
    hreq hth (by decide)⟩

theorem dht_init_then_read_stuck_line_witness :
    (dht_init (stuckEnv false) 0 = (DHT_OK, 0) ∧
      spec_us_in_ready_signal_half + 10 = 90 ∧
      ∃ tf, dht_read (stuckEnv false) 0 = some (DHT_ERR_TIMEOUT, zeroReading, tf)) ∧
    (dht_init (stuckEnv true) 0 = (DHT_OK, 0) ∧
      spec_us_in_ready_signal_half + 10 = 90 ∧
      ∃ tf, dht_read (stuckEnv true) 0 = some (DHT_ERR_TIMEOUT, zeroReading, tf)) :=
  ⟨dht_init_then_read_stuck_line (stuckEnv false) 0 false
      (fun _ => rfl) (fun _ => rfl) (fun _ => rfl),
   dht_init_then_read_stuck_line (stuckEnv true) 0 true
      (fun _ => rfl) (fun _ => rfl) (fun _ => rfl)⟩

/-- Elements at indices other than the written one are unchanged. -/
theorem getD_set_ne (l : List Nat) (i j v : Nat) (h : i ≠ j) :
    (l.set i v).getD j 0 = l.getD j 0 := by
  simp [List.getD, List.getElem?_set_ne h]

/-- Claim C5: the low-phase wait of `dht_read_bit` is bounded by
`data_bit_low + 20 = 70` µs and the high-phase wait by
`data_bit_high + 20 = 90` µs; if either wait times out the function
returns DHT_ERR_TIMEOUT without writing a bit value; otherwise the
measured high duration yields bit 0 when < 40µs and bit 1 otherwise, so
a 30µs high phase decodes to 0 and a 70µs high phase to 1. -/
theorem dht_read_bit_decoding (e : DhtEnv) (t : Nat) :
    (spec_us_in_data_bit_low + 20 = 70 ∧ spec_us_in_data_bit_high + 20 = 90 ∧
      spec_us_bit_length_threshold = 40) ∧
    (∀ t1, dht_await_level e true (spec_us_in_data_bit_low + 20) t = some (false, t1) →
      dht_read_bit e t = some (DHT_ERR_TIMEOUT, none, t1)) ∧
    (∀ t1 t2, dht_await_level e true (spec_us_in_data_bit_low + 20) t = some (true, t1) →
      dht_await_level e false (spec_us_in_data_bit_high + 20) t1 = some (false, t2) →
      dht_read_bit e t = some (DHT_ERR_TIMEOUT, none, t2)) ∧
    (∀ t1 t2, dht_await_level e true (spec_us_in_data_bit_low + 20) t = some (true, t1) →
      dht_await_level e false (spec_us_in_data_bit_high + 20) t1 = some (true, t2) →
      dht_read_bit e t =
        some (DHT_OK,
          some (if t2 - t1 < spec_us_bit_length_threshold then false else true), t2)) ∧
    dht_read_bit (pulseEnv 30) 0 = some (DHT_OK, some false, 30) ∧
    dht_read_bit (pulseEnv 70) 0 = some (DHT_OK, some true, 70) := by
  refine ⟨⟨rfl, rfl, rfl⟩, ?_, ?_, ?_, by decide, by decide⟩
  · intro t1 h
    simp [dht_read_bit, h]
  · intro t1 t2 h1 h2
    simp [dht_read_bit, h1, h2]
  · intro t1 t2 h1 h2
    simp [dht_read_bit, h1, h2]

theorem dht_read_bit_decoding_witness :
    dht_read_bit (pulseEnv 70) 0 =
      some (DHT_OK,
        some (if 70 - 0 < spec_us_bit_length_threshold then false else true), 70) :=
  (dht_read_bit_decoding (pulseEnv 70) 0).2.2.2.1 0 70 (by decide) (by decide)

/-- Claim C6: `dht_read` assembles exactly 5 bytes from 40 bit reads in
order; per byte the 8 bits are read most-significant first and each
successful bit is ORed into position `n` (that is, `7 - bit_index`) of
the current byte, followed by a 10µs settle delay; the first bit timeout
aborts the whole read immediately with DHT_ERR_TIMEOUT and no byte
beyond those already completed is stored. -/
theorem dht_frame_assembly (e : DhtEnv) :
    (∀ t n byte_in bit_in b t1,
      dht_read_bit e t = some (DHT_OK, some b, t1) →
      dht_read_bits e (n + 1) byte_in bit_in t =
        dht_read_bits e n (if b then byte_in ||| (1 <<< n) else byte_in) b
          (t1 + measured_us_max_transition_t)) ∧
    (∀ t n byte_in bit_in t1,
      dht_read_bit e t = some (DHT_ERR_TIMEOUT, none, t1) →
      dht_read_bits e (n + 1) byte_in bit_in t =
        some (DHT_ERR_TIMEOUT, byte_in, bit_in, t1)) ∧
    (∀ t n byte_idx buf bit_in byte b2 t1,
      dht_read_bits e 8 0 bit_in t = some (DHT_OK, byte, b2, t1) →
      dht_read_frame e (n + 1) byte_idx buf bit_in t =
        dht_read_frame e n (byte_idx + 1) (buf.set byte_idx byte) b2 t1) ∧
    (∀ t n byte_idx buf bit_in rv byte b2 t1,
      dht_read_bits e 8 0 bit_in t = some (rv, byte, b2, t1) → rv ≠ DHT_OK →
      dht_read_frame e (n + 1) byte_idx buf bit_in t =
        some (DHT_ERR_TIMEOUT, buf, b2, t1)) ∧
    (∀ n t byte_idx buf bit_in rv buf2 b2 t1,
      dht_read_frame e n byte_idx buf bit_in t = some (rv, buf2, b2, t1) →
      rv ≠ DHT_OK →
      ∃ k, k < n ∧ ∀ j, byte_idx + k ≤ j → buf2.getD j 0 = buf.getD j 0) ∧
    (∀ t2 rv buf b t3,
      dht_read_frame e DHT_BYTES_PER_READ 0 zeroFrame false t2 = some (rv, buf, b, t3) →
      rv ≠ DHT_OK → ∃ k, k < 5 ∧ ∀ j, k ≤ j → buf.getD j 0 = 0) ∧
    (∀ t t1 t2 t3 rv buf b, dht_request_readings e t = (DHT_OK, t1) →
      dht_await_data e t1 = some (DHT_OK, t2) →
      dht_read_frame e DHT_BYTES_PER_READ 0 zeroFrame false t2 = some (rv, buf, b, t3) →
      rv ≠ DHT_OK → dht_read e t = some (DHT_ERR_TIMEOUT, zeroReading, t3)) ∧
    DHT_BYTES_PER_READ = 5 := by
  have hframe : ∀ n t byte_idx buf bit_in rv buf2 b2 t1,
      dht_read_frame e n byte_idx buf bit_in t = some (rv, buf2, b2, t1) →
      rv ≠ DHT_OK →
      ∃ k, k < n ∧ ∀ j, byte_idx + k ≤ j → buf2.getD j 0 = buf.getD j 0 := by
    intro n
    induction n with
    | zero =>
      intro t byte_idx buf bit_in rv buf2 b2 t1 h hrv
      simp [dht_read_frame] at h
      exact absurd h.1.symm hrv
    | succ n ih =>
      intro t byte_idx buf bit_in rv buf2 b2 t1 h hrv
      rw [dht_read_frame] at h
      rcases hb : dht_read_bits e 8 0 bit_in t with _ | ⟨rvb, byte, b3, tb⟩ <;> rw [hb] at h
      · cases h
      cases rvb
      · obtain ⟨k, hk, hagree⟩ :=
          ih tb (byte_idx + 1) (buf.set byte_idx byte) b3 rv buf2 b2 t1 h hrv
        refine ⟨k + 1, by omega, fun j hj => ?_⟩
        rw [hagree j (by omega), getD_set_ne buf byte_idx j byte (by omega)]
      all_goals
        simp at h
        exact ⟨0, by omega, fun j hj => by rw [h.2.1]⟩
  refine ⟨?_, ?_, ?_, ?_, hframe, ?_, ?_, rfl⟩
  · intro t n byte_in bit_in b t1 h
    simp [dht_read_bits, h]
  · intro t n byte_in bit_in t1 h
    simp [dht_read_bits, h]
  · intro t n byte_idx buf bit_in byte b2 t1 h
    simp [dht_read_frame, h]
  · intro t n byte_idx buf bit_in rv byte b2 t1 h hrv
    cases rv
    · exact absurd rfl hrv
    all_goals simp [dht_read_frame, h]
  · intro t2 rv buf b t3 h hrv
    obtain ⟨k, hk, hagree⟩ :=
      hframe DHT_BYTES_PER_READ t2 0 zeroFrame false rv buf b t3 h hrv
    refine ⟨k, hk, fun j hj => ?_⟩
    rw [hagree j (by omega)]
    rcases Nat.lt_or_ge j 5 with hj5 | hj5
    · interval_cases j <;> rfl
    · have hlen : zeroFrame.length ≤ j := by simp only [zeroFrame]; simpa using hj5
      simp [List.getD, List.getElem?_eq_none hlen]
  · intro t t1 t2 t3 rv buf b h1 h2 h3 hrv
    exact dht_read_bits_timeout_eq e t t1 t2 t3 rv buf b h1 h2 h3 hrv

theorem dht_frame_assembly_witness :
    dht_read_bits (stuckEnv false) 8 0 false 0 = some (DHT_ERR_TIMEOUT, 0, false, 70) :=
  (dht_frame_assembly (stuckEnv false)).2.1 0 7 0 false 70 (by decide)

/-!
Wall-clock bounds for each stage, under 1µs polling.
-/

theorem dht_await_level_time_le (e : DhtEnv) (target : Bool) (timeoutUsec t : Nat)
    (hstep : ∀ s, e.pollStep s = 0) (ok : Bool) (t' : Nat)
    (h : dht_await_level e target timeoutUsec t = some (ok, t')) :
    t' ≤ t + timeoutUsec :=
  awaitLoop_time_le e target timeoutUsec t hstep (timeoutUsec + 1) t ok t' (by omega) h

theorem dht_await_data_time_le (e : DhtEnv) (t : Nat) (hstep : ∀ s, e.pollStep s = 0)
    (rv : dht_retval) (t' : Nat) (h : dht_await_data e t = some (rv, t')) :
    t' ≤ t + 2 * (spec_us_in_ready_signal_half + 10) := by
  rw [dht_await_data] at h
  rcases h1 : dht_await_level e true (spec_us_in_ready_signal_half + 10) t
    with _ | ⟨ok1, t1⟩ <;> rw [h1] at h
  · cases h
  have hb1 := dht_await_level_time_le e true (spec_us_in_ready_signal_half + 10) t
    hstep ok1 t1 h1
  cases ok1
  · simp at h
    obtain ⟨-, h'⟩ := h
    omega
  · simp at h
    rcases h2 : dht_await_level e false (spec_us_in_ready_signal_half + 10) t1
      with _ | ⟨ok2, t2⟩
    · rw [h2] at h; simp at h
    · have hb2 := dht_await_level_time_le e false (spec_us_in_ready_signal_half + 10) t1
        hstep ok2 t2 h2
      cases ok2 <;> rw [h2] at h <;> simp at h <;> obtain ⟨-, h'⟩ := h <;> omega

theorem dht_read_bit_time_le (e : DhtEnv) (t : Nat) (hstep : ∀ s, e.pollStep s = 0)
    (rv : dht_retval) (w : Option Bool) (t' : Nat)
    (h : dht_read_bit e t = some (rv, w, t')) :
    t' ≤ t + (spec_us_in_data_bit_low + 20) + (spec_us_in_data_bit_high + 20) := by
  rw [dht_read_bit] at h
  rcases h1 : dht_await_level e true (spec_us_in_data_bit_low + 20) t
    with _ | ⟨ok1, t1⟩ <;> rw [h1] at h
  · cases h
  have hb1 := dht_await_level_time_le e true (spec_us_in_data_bit_low + 20) t
    hstep ok1 t1 h1
  cases ok1
  · simp at h
    obtain ⟨-, -, h'⟩ := h
    omega
  · simp at h
    rcases h2 : dht_await_level e false (spec_us_in_data_bit_high + 20) t1
      with _ | ⟨ok2, t2⟩
    · rw [h2] at h; simp at h
    · have hb2 := dht_await_level_time_le e false (spec_us_in_data_bit_high + 20) t1
        hstep ok2 t2 h2
      cases ok2 <;> rw [h2] at h <;> simp at h <;> obtain ⟨-, -, h'⟩ := h <;> omega

theorem dht_read_bits_time_le (e : DhtEnv) (hstep : ∀ s, e.pollStep s = 0) :
    ∀ n byte_in bit_in t rv byte2 bit2 t',
      dht_read_bits e n byte_in bit_in t = some (rv, byte2, bit2, t') →
      t' ≤ t + n * ((spec_us_in_data_bit_low + 20) + (spec_us_in_data_bit_high + 20) +
        measured_us_max_transition_t) := by
  intro n
  induction n with
  | zero =>
    intro byte_in bit_in t rv byte2 bit2 t' h
    simp [dht_read_bits] at h
    obtain ⟨-, -, -, h'⟩ := h
    omega
  | succ n ih =>
    intro byte_in bit_in t rv byte2 bit2 t' h
    rw [dht_read_bits] at h
    rcases hb : dht_read_bit e t with _ | ⟨rvb, wb, tb⟩ <;> rw [hb] at h
    · cases h
    have hbb := dht_read_bit_time_le e t hstep rvb wb tb hb
    by_cases hrv : rvb = DHT_OK
    · simp only [hrv, if_pos] at h
      have hrec := ih _ _ (tb + measured_us_max_transition_t) rv byte2 bit2 t' h
      simp only [spec_us_in_data_bit_low, spec_us_in_data_bit_high,
        measured_us_max_transition_t] at hrec hbb ⊢
      omega
    · simp only [if_neg hrv] at h
      simp at h
      obtain ⟨-, -, -, h'⟩ := h
      simp only [spec_us_in_data_bit_low, spec_us_in_data_bit_high,
        measured_us_max_transition_t] at hbb ⊢
      omega

theorem dht_read_frame_time_le (e : DhtEnv) (hstep : ∀ s, e.pollStep s = 0) :
    ∀ n byte_idx buf bit_in t rv buf2 b2 t',
      dht_read_frame e n byte_idx buf bit_in t = some (rv, buf2, b2, t') →
      t' ≤ t + n * (8 * ((spec_us_in_data_bit_low + 20) + (spec_us_in_data_bit_high + 20) +
        measured_us_max_transition_t)) := by
  intro n
  induction n with
  | zero =>
    intro byte_idx buf bit_in t rv buf2 b2 t' h
    simp [dht_read_frame] at h
    obtain ⟨-, -, -, h'⟩ := h
    omega
  | succ n ih =>
    intro byte_idx buf bit_in t rv buf2 b2 t' h
    rw [dht_read_frame] at h
    rcases hb : dht_read_bits e 8 0 bit_in t with _ | ⟨rvb, byte, b3, tb⟩ <;> rw [hb] at h
    · cases h
    have hbb := dht_read_bits_time_le e hstep 8 0 bit_in t rvb byte b3 tb hb
    cases rvb
    · have hrec := ih (byte_idx + 1) (buf.set byte_idx byte) b3 tb rv buf2 b2 t' h
      simp only [spec_us_in_data_bit_low, spec_us_in_data_bit_high,
        measured_us_max_transition_t] at hrec hbb ⊢
      omega
    all_goals
      simp at h
      obtain ⟨-, -, -, h'⟩ := h
      simp only [spec_us_in_data_bit_low, spec_us_in_data_bit_high,
        measured_us_max_transition_t] at hbb ⊢
      omega

theorem dht_request_readings_time_le (e : DhtEnv) (t : Nat) (rv : dht_retval) (t' : Nat)
    (h : dht_request_readings e t = (rv, t')) :
    t' ≤ t + spec_us_out_request_low + spec_us_out_request_high := by
  rw [dht_request_readings] at h
  by_cases h1 : e.dirOk t = false
  · rw [if_pos h1] at h
    injection h with _ h'
    omega
  rw [if_neg h1] at h
  by_cases h2 : e.lvlOk t = false
  · rw [if_pos h2] at h
    injection h with _ h'
    omega
  rw [if_neg h2] at h
  by_cases h3 : e.lvlOk (t + spec_us_out_request_low) = false
  · simp only [if_pos h3] at h
    injection h with _ h'
    omega
  simp only [if_neg h3] at h
  by_cases h4 : e.dirOk (t + spec_us_out_request_low + spec_us_out_request_high) = false
  · simp only [if_pos h4] at h
    injection h with _ h'
    omega
  simp only [if_neg h4] at h
  injection h with _ h'
  omega

/-- Claim C9: under the model's strictly increasing monotonic clock every
`dht_read` call terminates with a status, and (with 1µs polling) the
whole transaction finishes within the sum of the request delays, the two
handshake bounds, and 40 times the per-bit bounds plus settle delay. -/
theorem dht_read_terminates (e : DhtEnv) (t : Nat) :
    (∃ r, dht_read e t = some r) ∧
    ((∀ s, e.pollStep s = 0) → ∀ rv rd tf, dht_read e t = some (rv, rd, tf) →
      tf ≤ t + (spec_us_out_request_low + spec_us_out_request_high) +
        2 * (spec_us_in_ready_signal_half + 10) +
        DHT_BYTES_PER_READ * (8 * ((spec_us_in_data_bit_low + 20) +
          (spec_us_in_data_bit_high + 20) + measured_us_max_transition_t))) := by
  constructor
  · have h := dht_read_isSome e t
    rcases hh : dht_read e t with _ | r
    · rw [hh] at h; simp at h
    · exact ⟨r, rfl⟩
  · intro hstep rv rd tf h
    rcases dht_read_cases e t with
      ⟨t1, rv1, hreq, -, heq⟩ | ⟨t1, t2, rv2, hreq, hawait, -, heq⟩ |
      ⟨t1, t2, t3, rv3, buf, b, hreq, hawait, hframe, -, heq⟩ |
      ⟨t1, t2, t3, buf, b, hreq, hawait, hframe, -, heq⟩ |
      ⟨t1, t2, t3, buf, b, hreq, hawait, hframe, -, heq⟩ <;>
      rw [heq] at h <;> simp at h <;>
      obtain ⟨-, -, htf⟩ := h
    · have hb1 := dht_request_readings_time_le e t rv1 t1 hreq
      simp only [spec_us_out_request_low, spec_us_out_request_high,
        spec_us_in_ready_signal_half, spec_us_in_data_bit_low, spec_us_in_data_bit_high,
        measured_us_max_transition_t, DHT_BYTES_PER_READ] at *
      omega
    all_goals
      have hb1 := dht_request_readings_time_le e t DHT_OK t1 hreq
    · have hb2 := dht_await_data_time_le e t1 hstep rv2 t2 hawait
      simp only [spec_us_out_request_low, spec_us_out_request_high,
        spec_us_in_ready_signal_half, spec_us_in_data_bit_low, spec_us_in_data_bit_high,
        measured_us_max_transition_t, DHT_BYTES_PER_READ] at *
      omega
    all_goals
      have hb2 := dht_await_data_time_le e t1 hstep DHT_OK t2 hawait
    · have hb3 := dht_read_frame_time_le e hstep DHT_BYTES_PER_READ 0 zeroFrame false t2
        rv3 buf b t3 hframe
      simp only [spec_us_out_request_low, spec_us_out_request_high,
        spec_us_in_ready_signal_half, spec_us_in_data_bit_low, spec_us_in_data_bit_high,
        measured_us_max_transition_t, DHT_BYTES_PER_READ] at *
      omega
    all_goals
      have hb3 := dht_read_frame_time_le e hstep DHT_BYTES_PER_READ 0 zeroFrame false t2
        DHT_OK buf b t3 hframe
      simp only [spec_us_out_request_low, spec_us_out_request_high,
        spec_us_in_ready_signal_half, spec_us_in_data_bit_low, spec_us_in_data_bit_high,
        measured_us_max_transition_t, DHT_BYTES_PER_READ] at *
      omega

theorem dht_read_terminates_witness :
    (∃ r, dht_read (stuckEnv false) 0 = some r) ∧
    dht_read (stuckEnv false) 0 = some (DHT_ERR_TIMEOUT, zeroReading, 3110) ∧
    3110 ≤ 0 + (spec_us_out_request_low + spec_us_out_request_high) +
      2 * (spec_us_in_ready_signal_half + 10) +
      DHT_BYTES_PER_READ * (8 * ((spec_us_in_data_bit_low + 20) +
        (spec_us_in_data_bit_high + 20) + measured_us_max_transition_t)) :=
  ⟨(dht_read_terminates (stuckEnv false) 0).1, by decide,
   (dht_read_terminates (stuckEnv false) 0).2 (fun _ => rfl)
     DHT_ERR_TIMEOUT zeroReading 3110 (by decide)⟩

/-- `dht_await_data` only ever reports OK or TIMEOUT. -/
theorem dht_await_data_rv (e : DhtEnv) (t : Nat) (rv : dht_retval) (t' : Nat)
    (h : dht_await_data e t = some (rv, t')) : rv = DHT_OK ∨ rv = DHT_ERR_TIMEOUT := by
  rw [dht_await_data] at h
  rcases h1 : dht_await_level e true (spec_us_in_ready_signal_half + 10) t
    with _ | ⟨ok1, t1⟩ <;> rw [h1] at h
  · cases h
  cases ok1
  · simp at h
    exact Or.inr h.1.symm
  · simp at h
    rcases h2 : dht_await_level e false (spec_us_in_ready_signal_half + 10) t1
      with _ | ⟨ok2, t2⟩
    · rw [h2] at h; simp at h
    · cases ok2 <;> rw [h2] at h <;> simp at h
      · exact Or.inr h.1.symm
      · exact Or.inl h.1.symm

/-- Claim C1: the result of `dht_read` is determined by the first failing
stage in the fixed order request → handshake → frame assembly → checksum
→ decode: DHT_ERR_GPIO iff `dht_request_readings` fails (any GPIO
set-direction/set-level failure short-circuits that stage immediately),
otherwise DHT_ERR_TIMEOUT iff the handshake wait or one of the bit reads
times out, otherwise DHT_ERR_BADCHECKSUM iff the received checksum byte
mismatches, and otherwise decoding succeeds and `dht_read` returns
DHT_OK with the decoded reading. -/
theorem dht_read_first_failing_stage (e : DhtEnv) (t : Nat) :
    (e.dirOk t = false → dht_request_readings e t = ( DHT_ERR_GPIO, t)) ∧
    (e.dirOk t = true → e.lvlOk t = false →
      dht_request_readings e t = ( DHT_ERR_GPIO, t)) ∧
    (e.dirOk t = true → e.lvlOk t = true →
      e.lvlOk (t + spec_us_out_request_low) = false →
      dht_request_readings e t = ( DHT_ERR_GPIO, t + spec_us_out_request_low)) ∧
    (e.dirOk t = true → e.lvlOk t = true →
      e.lvlOk (t + spec_us_out_request_low) = true →
      e.dirOk (t + spec_us_out_request_low + spec_us_out_request_high) = false →
      dht_request_readings e t =
        ( DHT_ERR_GPIO, t + spec_us_out_request_low + spec_us_out_request_high)) ∧
    (∀ rv rd tf, dht_read e t = some (rv, rd, tf) →
      (rv = DHT_ERR_GPIO ↔ (dht_request_readings e t).1 ≠ DHT_OK) ∧
      (∀ t1, dht_request_readings e t = (DHT_OK, t1) →
        (rv = DHT_ERR_TIMEOUT ↔
          ((∃ th, dht_await_data e t1 = some (DHT_ERR_TIMEOUT, th)) ∨
           (∃ t2 rv3 buf b t3, dht_await_data e t1 = some (DHT_OK, t2) ∧
             dht_read_frame e DHT_BYTES_PER_READ 0 zeroFrame false t2 =
               some (rv3, buf, b, t3) ∧ rv3 ≠ DHT_OK))) ∧
        (∀ t2 buf b t3, dht_await_data e t1 = some (DHT_OK, t2) →
          dht_read_frame e DHT_BYTES_PER_READ 0 zeroFrame false t2 =
            some (DHT_OK, buf, b, t3) →
          (rv = DHT_ERR_BADCHECKSUM ↔ dht_checksum_ok buf = false) ∧
          (rv = DHT_OK ↔ dht_checksum_ok buf = true) ∧
          (rv = DHT_OK → rd = dht_parse buf)))) := by
  refine ⟨?_, ?_, ?_, ?_, ?_⟩
  · intro h1; simp [dht_request_readings, h1]
  · intro h1 h2; simp [dht_request_readings, h1, h2]
  · intro h1 h2 h3; simp [dht_request_readings, h1, h2, h3]
  · intro h1 h2 h3 h4; simp [dht_request_readings, h1, h2, h3, h4]
  · intro rv rd tf h
    rcases dht_read_cases e t with
      ⟨t1, rv1, hreq, hrv1, heq⟩ | ⟨t1, t2, rv2, hreq, hawait, hrv2, heq⟩ |
      ⟨t1, t2, t3, rv3, buf, b, hreq, hawait, hframe, hrv3, heq⟩ |
      ⟨t1, t2, t3, buf, b, hreq, hawait, hframe, hcs, heq⟩ |
      ⟨t1, t2, t3, buf, b, hreq, hawait, hframe, hcs, heq⟩ <;>
      rw [heq] at h <;> simp at h <;>
      obtain ⟨hrv, hrd, htf⟩ := h <;> subst hrv <;> subst hrd <;> subst htf
    · constructor
      · simp only [hreq]
        simpa using hrv1
      · intro t1' ht
        rw [hreq] at ht
        injection ht with ha hb
        exact absurd ha hrv1
    · have hrv2' : rv2 = DHT_ERR_TIMEOUT :=
        (dht_await_data_rv e t1 rv2 t2 hawait).resolve_left hrv2
      subst hrv2'
      constructor
      · simp [hreq]
      · intro t1' ht
        rw [hreq] at ht
        injection ht with ha hb
        subst hb
        constructor
        · exact ⟨fun _ => Or.inl ⟨t2, hawait⟩, fun _ => rfl⟩
        · intro t2' buf b t3 hA hF
          rw [hawait] at hA
          simp at hA
    · constructor
      · simp [hreq]
      · intro t1' ht
        rw [hreq] at ht
        injection ht with ha hb
        subst hb
        constructor
        · exact ⟨fun _ => Or.inr ⟨t2, rv3, buf, b, t3, hawait, hframe, hrv3⟩,
                 fun _ => rfl⟩
        · intro t2' buf' b' t3' hA hF
          rw [hawait] at hA
          simp at hA
          subst hA
          rw [hframe] at hF
          simp at hF
          exact absurd hF.1 hrv3
    · constructor
      · simp [hreq]
      · intro t1' ht
        rw [hreq] at ht
        injection ht with ha hb
        subst hb
        constructor
        · constructor
          · intro hL
            exact absurd hL (by decide)
          · intro hR
            exfalso
            rcases hR with ⟨th, hth⟩ | ⟨t2', rv3', buf', b', t3', hA, hF, hne⟩
            · rw [hawait] at hth
              simp at hth
            · rw [hawait] at hA
              simp at hA
              subst hA
              rw [hframe] at hF
              simp at hF
              exact absurd hF.1.symm hne
        · intro t2' buf' b' t3' hA hF
          rw [hawait] at hA
          simp at hA
          subst hA
          rw [hframe] at hF
          simp at hF
          obtain ⟨hbuf, -, -⟩ := hF
          subst hbuf
          refine ⟨by simp [hcs], by simp [hcs], by simp⟩
    · constructor
      · simp [hreq]
      · intro t1' ht
        rw [hreq] at ht
        injection ht with ha hb
        subst hb
        constructor
        · constructor
          · intro hL
            exact absurd hL (by decide)
          · intro hR
            exfalso
            rcases hR with ⟨th, hth⟩ | ⟨t2', rv3', buf', b', t3', hA, hF, hne⟩
            · rw [hawait] at hth
              simp at hth
            · rw [hawait] at hA
              simp at hA
              subst hA
              rw [hframe] at hF
              simp at hF
              exact absurd hF.1.symm hne
        · intro t2' buf' b' t3' hA hF
          rw [hawait] at hA
          simp at hA
          subst hA
          rw [hframe] at hF
          simp at hF
          obtain ⟨hbuf, -, -⟩ := hF
          subst hbuf
          refine ⟨by simp [hcs], by simp [hcs], fun _ => rfl⟩

theorem dht_read_first_failing_stage_witness :
    dht_request_readings gpioFailEnv 0 = ( DHT_ERR_GPIO, 0) ∧
    (DHT_ERR_BADCHECKSUM = DHT_ERR_GPIO ↔
      (dht_request_readings badEnv 0).1 ≠ DHT_OK) :=
  ⟨(dht_read_first_failing_stage gpioFailEnv 0).1 rfl,
   ((dht_read_first_failing_stage badEnv 0).2.2.2.2 DHT_ERR_BADCHECKSUM
      zeroReading 6870 (by decide)).1⟩

/-- Claim C4 counterexample: `badEnv` delivers a complete 5-byte frame
whose received checksum byte `buf[4] = 119` is nonzero, the checksum
validation fails, and the output reading's checksum field is 0 — not the
received fifth byte — refuting the claim that the checksum field equals
`buf[4]` regardless of the validation outcome. -/
theorem dht_read_checksum_field_counterexample :
    dht_read_frame badEnv DHT_BYTES_PER_READ 0 zeroFrame false 3180 =
      some (DHT_OK, [2, 140, 1, 2, 119], true, 6870) ∧
    dht_read badEnv 0 = some (DHT_ERR_BADCHECKSUM, zeroReading, 6870) ∧
    zeroReading.checksum = 0 ∧ (119 : Nat) ≠ 0 :=
  ⟨by decide, by decide, rfl, by decide⟩

/-- Claim C4 (amended): after a `dht_read` call that assembles a complete
5-byte frame, the output reading's checksum field equals the received
fifth byte `buf[4]` when the checksum validation succeeds (DHT_OK); when
it fails (DHT_ERR_BADCHECKSUM) the reading — its checksum field included
— keeps its zeroed value, because `reading->checksum = buf[4]` is only
executed after the validation passes. -/
theorem dht_read_checksum_field (e : DhtEnv) (t : Nat) :
    ∀ t1 t2 t3 buf b, dht_request_readings e t = (DHT_OK, t1) →
      dht_await_data e t1 = some (DHT_OK, t2) →
      dht_read_frame e DHT_BYTES_PER_READ 0 zeroFrame false t2 =
        some (DHT_OK, buf, b, t3) →
      (dht_checksum_ok buf = true →
        dht_read e t = some (DHT_OK, dht_parse buf, t3) ∧
        (dht_parse buf).checksum = buf.getD 4 0) ∧
      (dht_checksum_ok buf = false →
        dht_read e t = some (DHT_ERR_BADCHECKSUM, zeroReading, t3) ∧
        zeroReading.checksum = 0) := by
  intro t1 t2 t3 buf b h1 h2 h3
  constructor
  · intro h4
    exact ⟨dht_read_ok_eq e t t1 t2 t3 buf b h1 h2 h3 h4, rfl⟩
  · intro h4
    exact ⟨dht_read_badchecksum_eq e t t1 t2 t3 buf b h1 h2 h3 h4, rfl⟩

theorem dht_read_checksum_field_witness :
    dht_read goodEnv 0 = some (DHT_OK, dht_parse [2, 140, 1, 2, 145], 6750) ∧
    (dht_parse [2, 140, 1, 2, 145]).checksum = [2, 140, 1, 2, 145].getD 4 0 :=
  ((dht_read_checksum_field goodEnv 0) 3020 3180 6750 [2, 140, 1, 2, 145] true
    (by decide) (by decide) (by decide)).1 (by decide)

end DhtSensor
